import Mathlib

/-!
Verification of the `module-5/memoryschema_collection.ipynb` notebook.

The notebook glues a pydantic memory schema, an in-memory key-value store,
a trustcall extractor and a two-node LangGraph state graph.  The hosted chat
model and the trustcall extractor are external services: they are embedded as
oracle parameters.  The in-memory store, the two node functions, the graph
builder and the environment-variable helper are embedded from the notebook's
source below.
-/

set_option autoImplicit false

namespace MemorySchema

/-- JSON-like values, the shape of everything the store holds
(`model_dump(mode="json")` of pydantic models produces such dictionaries). -/
inductive Json where
  | str : String → Json
  | num : Int → Json
  | obj : List (String × Json) → Json
  deriving Repr

/-- Decidable equality for `Json` (nested inductive, written by hand). -/
def Json.beq : Json → Json → Bool
  | .str a, .str b => a == b
  | .num a, .num b => a == b
  | .obj a, .obj b => beqFields a b
  | _, _ => false
where
  beqFields : List (String × Json) → List (String × Json) → Bool
    | [], [] => true
    | (k, v) :: xs, (k2, v2) :: ys => k == k2 && Json.beq v v2 && beqFields xs ys
    | _, _ => false

instance : BEq Json := ⟨Json.beq⟩

/-- The `os.environ` mapping: a partial map from variable names to values. -/
abbrev Env : Type := String → Option String

/-- Assignment `os.environ[var] = value`: point update of the environment. -/
def Env.set (env : Env) (var value : String) : Env :=
  fun v => if v = var then some value else env v

/-- Python truthiness test `not env_value` on `os.environ.get(var)`:
true when the variable is unset or holds the empty string. -/
def envFalsy : Option String → Bool
  | none => true
  | some s => s = ""

/-- Embeds `_set_env` from the notebook.  `prompt` is the string the user
would type at the `getpass.getpass` prompt.  Returns the updated environment
and whether the prompt was shown:

    def _set_env(var: str):
        env_value = os.environ.get(var)
        if not env_value:
            env_value = getpass.getpass(f"{var}: ")
        os.environ[var] = env_value
-/
def set_env (prompt : String) (env : Env) (var : String) : Env × Bool :=
  let env_value := env var
  if envFalsy env_value then
    (env.set var prompt, true)
  else
    (env.set var (env_value.getD ""), false)

/-- The `Memory` pydantic model of the notebook: a single string field
`content` ("The main content of the memory."). -/
structure Memory where
  content : String
  deriving Repr, DecidableEq

/-- The `MemoryCollection` pydantic model: a single field `memories`,
a list of `Memory` records. -/
structure MemoryCollection where
  memories : List Memory
  deriving Repr, DecidableEq

/-- Serialization `memory.model_dump(mode="json")`: the JSON dictionary of a `Memory`
record, a one-key dictionary `content ↦ <string>`. -/
def Memory.model_dump (m : Memory) : Json :=
  Json.obj [("content", Json.str m.content)]

/-- Field types appearing in the notebook's pydantic schemas. -/
inductive FieldType where
  | text : FieldType
  | listOf : String → FieldType
  deriving Repr, DecidableEq

/-- A pydantic schema as declared: a class name and its ordered fields. -/
structure Schema where
  name : String
  fields : List (String × FieldType)
  deriving Repr, DecidableEq

/-- The declared shape of the `Memory` class: one field, `content : str`. -/
def Memory.schema : Schema :=
  { name := "Memory", fields := [("content", FieldType.text)] }

/-- The declared shape of the `MemoryCollection` class: one field,
`memories : list[Memory]`. -/
def MemoryCollection.schema : Schema :=
  { name := "MemoryCollection",
    fields := [("memories", FieldType.listOf "Memory")] }

/-- The schemas the notebook defines for the memory data model. -/
def notebookSchemas : List Schema := [Memory.schema, MemoryCollection.schema]

/-! ## The key-value store

`langgraph.store.memory.InMemoryStore`, as the notebook uses it: items live
under a namespace (a tuple of strings), keyed by a string key; `put` upserts
and `search` lists the items of one namespace in insertion order. -/

/-- A store namespace: the Python tuple `("memories", user_id)` becomes the
list `["memories", user_id]`. -/
abbrev Namespace : Type := List String

/-- An item returned by `store.search`: its key and its JSON value. -/
structure Item where
  key : String
  value : Json
  deriving Repr

/-- The store contents: entries `(namespace, key, value)` in insertion
order. -/
abbrev Store : Type := List (Namespace × String × Json)

/-- Embeds `store.search(namespace)`: all items of one namespace, in order. -/
def Store.search (s : Store) (ns : Namespace) : List Item :=
  s.filterMap (fun e => if e.1 = ns then some ⟨e.2.1, e.2.2⟩ else none)

/-- Embeds `store.put(namespace, key, value)`: update the entry under
`(namespace, key)` when present, otherwise append a new entry. -/
def Store.put (s : Store) (ns : Namespace) (key : String) (value : Json) : Store :=
  if s.any (fun e => e.1 = ns ∧ e.2.1 = key) then
    s.map (fun e => if e.1 = ns ∧ e.2.1 = key then (ns, key, value) else e)
  else
    s ++ [(ns, key, value)]

/-- One store API call made by a graph node. -/
inductive StoreOp where
  | search : Namespace → StoreOp
  | put : Namespace → String → Json → StoreOp
  deriving Repr

/-- Whether a store operation is a `put` (a mutation). -/
def StoreOp.isPut : StoreOp → Bool
  | .search _ => false
  | .put _ _ _ => true

/-- The namespace a store operation addresses. -/
def StoreOp.ns : StoreOp → Namespace
  | .search n => n
  | .put n _ _ => n

/-- The effect of one store API call on the store contents: `search` reads,
`put` upserts. -/
def Store.applyOp (s : Store) : StoreOp → Store
  | .search _ => s
  | .put ns key value => s.put ns key value

/-- The store contents after a sequence of store API calls. -/
def Store.applyOps (s : Store) (ops : List StoreOp) : Store :=
  ops.foldl Store.applyOp s

/-! ## Messages and the external model / extractor -/

/-- LangChain chat messages, as the notebook builds them. -/
inductive Message where
  | system : String → Message
  | human : String → Message
  | ai : String → Message
  deriving Repr, DecidableEq

/-- The hosted chat model (`model.invoke`): an oracle from the prompt
messages to the response message. -/
abbrev ChatModel : Type := List Message → Message

/-- One element of trustcall's `response_metadata`: a string-valued JSON
dictionary; `write_memory` only reads its `"json_doc_id"` key. -/
abbrev Metadata : Type := List (String × String)

/-- What `trustcall_extractor.invoke` returns: the extracted `Memory`
records (`responses`) and one metadata dictionary per response
(`response_metadata`). -/
structure ExtractorResult where
  responses : List Memory
  response_metadata : List Metadata
  deriving Repr

/-- The `existing` argument as the extractor expects it: `None`, or a list of
`(key, tool_name, value)` triples for the already stored records. -/
abbrev Existing : Type := Option (List (String × String × Json))

/-- The trustcall extractor (`trustcall_extractor.invoke`): an oracle from
the merged messages and the `existing` memories to its result. -/
abbrev Extractor : Type := List Message → Existing → ExtractorResult

/-- The per-pair uuid source: `str(uuid.uuid4())` for the i-th
`(response, metadata)` pair of one `write_memory` call. -/
abbrev UuidSource : Type := Nat → String

/-- The `config["configurable"]` dictionary the notebook passes to the
graph: a thread id and a user id. -/
structure Config where
  thread_id : String
  user_id : String
  deriving Repr, DecidableEq

/-- The content of a chat message. -/
def Message.content : Message → String
  | .system c => c
  | .human c => c
  | .ai c => c

/-- Whether two messages are runs of the same message class. -/
def Message.sameKind : Message → Message → Bool
  | .system _, .system _ => true
  | .human _, .human _ => true
  | .ai _, .ai _ => true
  | _, _ => false

/-- Merge two consecutive messages of the same class, joining contents. -/
def Message.mergeWith : Message → Message → Message
  | .system c, m => .system (c ++ "\n" ++ m.content)
  | .human c, m => .human (c ++ "\n" ++ m.content)
  | .ai c, m => .ai (c ++ "\n" ++ m.content)

/-- Embeds `langchain_core.messages.merge_message_runs`: consecutive messages of
the same class are merged into one. -/
def merge_message_runs : List Message → List Message
  | [] => []
  | [m] => [m]
  | m1 :: m2 :: rest =>
    if m1.sameKind m2 then merge_message_runs (m1.mergeWith m2 :: rest)
    else m1 :: merge_message_runs (m2 :: rest)
termination_by ms => ms.length

/-- The chatbot instruction of the notebook up to its `{memory}` slot. -/
def MODEL_SYSTEM_MESSAGE_template : String :=
  "You are a helpful chatbot. You are designed to be a companion to a user. \n\nYou have a long term memory which keeps track of information you learn about the user over time.\n\nCurrent Memory (may include updated memories from this conversation): \n\n"

/-- Embeds `MODEL_SYSTEM_MESSAGE.format(memory=info)`. -/
def formatSystemMessage (memory : String) : String :=
  MODEL_SYSTEM_MESSAGE_template ++ memory

/-- The trustcall instruction of the notebook. -/
def TRUSTCALL_INSTRUCTION : String :=
  "Reflect on following interaction. \n\nUse the provided tools to retain any necessary memories about the user. \n\nUse parallel tool calling to handle updates and insertions simultaneously:"

/-- Field access `value["content"]` on a stored JSON value. -/
def Json.lookupField : Json → String → Option Json
  | .obj fields, k => fields.lookup k
  | _, _ => none

/-- How an f-string renders a JSON value. -/
def Json.render : Json → String
  | .str s => s
  | .num n => toString n
  | .obj _ => ""

/-! ## The two graph nodes -/

/-- What one `call_model` execution produces: the message it returns (under
the `"messages"` key of the state update) and the store API calls it made. -/
structure CallModelRun where
  response : Message
  ops : List StoreOp
  deriving Repr

/-- Embeds the notebook's `call_model` node: read the user id from the
config, search the `("memories", user_id)` namespace, format the memories
into the system prompt and invoke the chat model. -/
def call_model (chat : ChatModel) (state : List Message) (config : Config)
    (store : Store) : CallModelRun :=
  let user_id := config.user_id
  let ns : Namespace := ["memories", user_id]
  let memories := store.search ns
  let info := String.intercalate "\n"
    (memories.map (fun mem =>
      "- " ++ ((mem.value.lookupField "content").getD (Json.str "")).render))
  let system_msg := formatSystemMessage info
  let response := chat (Message.system system_msg :: state)
  { response := response, ops := [StoreOp.search ns] }

/-- The `for r, rmeta in zip(result["responses"], result["response_metadata"])`
loop of `write_memory`: one `store.put` per pair, under the metadata's
`json_doc_id` when present and under the freshly drawn uuid otherwise.
`i` counts the pairs already handled, indexing the uuid source. -/
def putLoop (ns : Namespace) (uuids : UuidSource) :
    List (Memory × Metadata) → Nat → List StoreOp
  | [], _ => []
  | (r, rmeta) :: rest, i =>
    StoreOp.put ns ((rmeta.lookup "json_doc_id").getD (uuids i)) r.model_dump
      :: putLoop ns uuids rest (i + 1)

/-- What one `write_memory` execution produces: the `existing` argument it
handed to the extractor, the extractor's result, and the store API calls it
made (the initial search followed by the puts of the loop). -/
structure WriteMemoryRun where
  existingArg : Existing
  result : ExtractorResult
  ops : List StoreOp

/-- Embeds the notebook's `write_memory` node: search the user's namespace,
turn the found items into `(key, "Memory", value)` triples (or `None` when
nothing was found), invoke the extractor on the merged messages, and store
every returned memory. -/
def write_memory (extractor : Extractor) (uuids : UuidSource)
    (state : List Message) (config : Config) (store : Store) : WriteMemoryRun :=
  let user_id := config.user_id
  let ns : Namespace := ["memories", user_id]
  let existing_items := store.search ns
  let tool_name := "Memory"
  let existing_memories : Existing :=
    if existing_items.isEmpty then none
    else some (existing_items.map
      (fun existing_item => (existing_item.key, tool_name, existing_item.value)))
  let updated_messages :=
    merge_message_runs (Message.system TRUSTCALL_INSTRUCTION :: state)
  let result := extractor updated_messages existing_memories
  { existingArg := existing_memories
    result := result
    ops := StoreOp.search ns
      :: putLoop ns uuids (result.responses.zip result.response_metadata) 0 }

/-! ## The graph -/

/-- The part of `langgraph.graph.StateGraph` the notebook uses: a list of
named nodes and a list of directed edges, in insertion order. -/
structure StateGraph where
  nodes : List String
  edges : List (String × String)
  deriving Repr, DecidableEq

/-- Embeds `StateGraph(MessagesState)`: the empty builder. -/
def StateGraph.ofMessagesState : StateGraph := { nodes := [], edges := [] }

/-- Embeds `builder.add_node(name, fn)`. -/
def StateGraph.add_node (g : StateGraph) (name : String) : StateGraph :=
  { g with nodes := g.nodes ++ [name] }

/-- Embeds `builder.add_edge(src, dst)`. -/
def StateGraph.add_edge (g : StateGraph) (src dst : String) : StateGraph :=
  { g with edges := g.edges ++ [(src, dst)] }

/-- The `langgraph.graph.START` sentinel. -/
def START : String := "__start__"

/-- The `langgraph.graph.END` sentinel. -/
def END : String := "__end__"

/-- The graph the notebook builds:

    builder = StateGraph(MessagesState)
    builder.add_node("call_model", call_model)
    builder.add_node("write_memory", write_memory)
    builder.add_edge(START, "call_model")
    builder.add_edge("call_model", "write_memory")
    builder.add_edge("write_memory", END)
-/
def builder : StateGraph :=
  ((((StateGraph.ofMessagesState.add_node "call_model").add_node
      "write_memory").add_edge START "call_model").add_edge
      "call_model" "write_memory").add_edge "write_memory" END

/-- Modelled from the spec: the external orchestration library executes the
graph "sequentially per conversation turn", following the unique outgoing
edge of each node from `START` until `END`; returns the node names in
execution order.  `fuel` bounds the walk. -/
def execFrom (g : StateGraph) : Nat → String → List String
  | 0, _ => []
  | fuel + 1, cur =>
    match g.edges.lookup cur with
    | none => []
    | some nxt => if nxt = END then [] else nxt :: execFrom g fuel nxt

/-- The nodes one graph invocation executes, in order. -/
def turnTrace (g : StateGraph) : List String :=
  execFrom g (g.nodes.length + 1) START

/-- What one full conversation turn produces. -/
structure TurnRun where
  response : Message
  store : Store
  ops : List StoreOp

/-- Modelled from the spec: one conversation turn runs `call_model` and then
`write_memory` sequentially; the `MessagesState` reducer appends the message
`call_model` returns to the message list before `write_memory` runs. -/
def runTurn (chat : ChatModel) (extractor : Extractor) (uuids : UuidSource)
    (state : List Message) (config : Config) (store : Store) : TurnRun :=
  let c := call_model chat state config store
  let s1 := store.applyOps c.ops
  let state1 := state ++ [c.response]
  let w := write_memory extractor uuids state1 config s1
  { response := c.response, store := s1.applyOps w.ops, ops := c.ops ++ w.ops }

/-- Whether a JSON value has the shape of a serialized `Memory` record:
a dictionary with exactly one key, `"content"`, holding a string. -/
def Json.isMemoryRecord : Json → Bool
  | .obj [(k, .str _)] => k == "content"
  | _ => false

/-- Whether a store operation is either a read or a `put` whose value is a
serialized `Memory` record. -/
def StoreOp.putValueOk : StoreOp → Bool
  | .put _ _ v => v.isMemoryRecord
  | .search _ => true

/-! ## Helper lemmas -/

/-- The put loop is the enumeration map: the i-th pair yields the put under
the metadata's `json_doc_id` (with the i-th uuid as the default key). -/
theorem putLoop_eq (ns : Namespace) (uuids : UuidSource) :
    ∀ (pairs : List (Memory × Metadata)) (i : Nat),
      putLoop ns uuids pairs i = (List.enumFrom i pairs).map
        (fun p => StoreOp.put ns
          ((p.2.2.lookup "json_doc_id").getD (uuids p.1)) p.2.1.model_dump)
  | [], _ => rfl
  | (r, rmeta) :: rest, i => by
    simp only [putLoop, List.enumFrom, List.map_cons]
    exact congrArg _ (putLoop_eq ns uuids rest (i + 1))

/-- Every operation the put loop emits addresses the namespace it was
given. -/
theorem putLoop_ns (ns : Namespace) (uuids : UuidSource) :
    ∀ (pairs : List (Memory × Metadata)) (i : Nat),
      ∀ op ∈ putLoop ns uuids pairs i, op.ns = ns
  | [], _ => by simp [putLoop]
  | (r, rmeta) :: rest, i => by
    simp only [putLoop, List.mem_cons]
    rintro op (rfl | hop)
    · rfl
    · exact putLoop_ns ns uuids rest (i + 1) op hop

/-- Updating the entries of one namespace in place is invisible to a search
of any other namespace. -/
theorem search_map_update (ns ns' : Namespace) (key : String) (value : Json)
    (hne : ns' ≠ ns) (s : Store) :
    (s.map (fun e => if e.1 = ns ∧ e.2.1 = key then (ns, key, value) else e)).filterMap
        (fun e => if e.1 = ns' then some (⟨e.2.1, e.2.2⟩ : Item) else none) =
      s.filterMap (fun e => if e.1 = ns' then some ⟨e.2.1, e.2.2⟩ else none) := by
  induction s with
  | nil => rfl
  | cons e rest ih =>
    by_cases hc : e.1 = ns ∧ e.2.1 = key
    · have h1 : ¬ e.1 = ns' := by rw [hc.1]; exact fun h => hne h.symm
      simp [List.filterMap_cons, hc, h1, Ne.symm hne, ih]
    · simp only [List.map_cons, if_neg hc, List.filterMap_cons, ih]

/-- A `put` into one namespace does not change what `search` sees in any
other namespace. -/
theorem Store.search_put_ne (s : Store) (ns ns' : Namespace) (key : String)
    (value : Json) (hne : ns' ≠ ns) :
    (s.put ns key value).search ns' = s.search ns' := by
  unfold Store.put
  split
  · exact search_map_update ns ns' key value hne s
  · unfold Store.search
    rw [List.filterMap_append]
    simp [Ne.symm hne]

/-- Applying operations that all address one namespace leaves every other
namespace's search results unchanged. -/
theorem Store.search_applyOps_ne (ns ns' : Namespace) (hne : ns' ≠ ns) :
    ∀ (ops : List StoreOp) (s : Store), (∀ op ∈ ops, op.ns = ns) →
      (s.applyOps ops).search ns' = s.search ns'
  | [], s, _ => rfl
  | op :: rest, s, hall => by
    have hrest := Store.search_applyOps_ne ns ns' hne rest (s.applyOp op)
      (fun o ho => hall o (List.mem_cons_of_mem _ ho))
    rw [Store.applyOps, List.foldl_cons, ← Store.applyOps, hrest]
    cases op with
    | search n => rfl
    | put n k v =>
      have : n = ns := hall _ (List.mem_cons_self _ _)
      subst this
      exact Store.search_put_ne s n ns' k v hne

/-! ## The claims -/

/-- C1: in `write_memory`, zipping the extractor's `responses` with its
`response_metadata` yields exactly one `store.put` per pair, all into the
user's namespace: the i-th pair is written under the metadata's
`json_doc_id` when that key is present (updating that record), and under
the freshly generated uuid for that pair otherwise (inserting a new
record). -/
theorem write_memory_one_put_per_pair (extractor : Extractor)
    (uuids : UuidSource) (state : List Message) (config : Config)
    (store : Store) :
    ((write_memory extractor uuids state config store).ops.filter
        StoreOp.isPut) =
      ((write_memory extractor uuids state config store).result.responses.zip
          (write_memory extractor uuids state config store).result.response_metadata).enum.map
        (fun p => StoreOp.put ["memories", config.user_id]
          ((p.2.2.lookup "json_doc_id").getD (uuids p.1)) p.2.1.model_dump) := by
  simp only [write_memory, List.filter_cons, StoreOp.isPut, putLoop_eq,
    Bool.false_eq_true, if_false]
  rw [List.filter_map]
  have : (StoreOp.isPut ∘ fun p : Nat × Memory × Metadata =>
      StoreOp.put ["memories", config.user_id]
        ((p.2.2.lookup "json_doc_id").getD (uuids p.1)) p.2.1.model_dump) =
      fun _ => true := rfl
  rw [this, List.filter_true]
  rfl

/-- C3: one graph invocation executes the nodes sequentially: the execution
trace is exactly `call_model` followed by `write_memory`, so each node runs
exactly once and `call_model` completes before `write_memory` starts. -/
theorem graph_executes_sequentially :
    turnTrace builder = ["call_model", "write_memory"] ∧
    (turnTrace builder).count "call_model" = 1 ∧
    (turnTrace builder).count "write_memory" = 1 ∧
    (turnTrace builder).indexOf "call_model" <
      (turnTrace builder).indexOf "write_memory" := by decide

/-- C4: the graph the notebook builds has exactly the two nodes
`call_model` and `write_memory` and exactly the three edges
`START → call_model`, `call_model → write_memory` and
`write_memory → END`. -/
theorem builder_two_nodes_three_edges :
    builder.nodes = ["call_model", "write_memory"] ∧
    builder.edges = [(START, "call_model"), ("call_model", "write_memory"),
      ("write_memory", END)] ∧
    builder.nodes.length = 2 ∧ builder.edges.length = 3 :=
  ⟨rfl, rfl, rfl, rfl⟩

/-- C5: every value `write_memory` puts into the store is the JSON
serialization of a `Memory` record: a dictionary with exactly one key,
`"content"`, holding a string; no other value shape is ever written. -/
theorem write_memory_values_are_memory_records (extractor : Extractor)
    (uuids : UuidSource) (state : List Message) (config : Config)
    (store : Store) :
    (write_memory extractor uuids state config store).ops.all
      StoreOp.putValueOk = true := by
  simp only [write_memory, List.all_cons, putLoop_eq, List.all_map,
    StoreOp.putValueOk, Bool.true_and]
  simp only [List.all_eq_true, List.mem_map, forall_exists_index, and_imp,
    Memory.model_dump]
  intro op p _ hop
  subst hop
  rfl

/-- C6 counterexample: no schema the notebook defines has two fields — the
claimed two-field schema (a text content field plus a list-of-records field
on one record type) does not exist; both `Memory` and `MemoryCollection`
are single-field. -/
theorem no_two_field_memory_schema :
    ¬ ∃ s ∈ notebookSchemas, s.fields.length = 2 ∧
        (∃ p ∈ s.fields, p.2 = FieldType.text) ∧
        (∃ p ∈ s.fields, p.2 = FieldType.listOf "Memory") := by decide

/-- C6 amended: the notebook defines the memory data model in two
single-field schemas: `Memory` with one text field `content`, and
`MemoryCollection` with one field `memories` holding a list of `Memory`
records. -/
theorem memory_model_two_single_field_schemas :
    Memory.schema.fields = [("content", FieldType.text)] ∧
    MemoryCollection.schema.fields = [("memories", FieldType.listOf "Memory")] ∧
    Memory.schema.fields.length = 1 ∧
    MemoryCollection.schema.fields.length = 1 :=
  ⟨rfl, rfl, rfl, rfl⟩

/-- An environment in which `OPENAI_API_KEY` is already set non-empty. -/
def envWithKey : Env :=
  fun v => if v = "OPENAI_API_KEY" then some "sk-test" else none

/-- C7 counterexample: `_set_env` does not prompt for every variable — when
the variable is already set to a non-empty value (here `OPENAI_API_KEY`
set to `"sk-test"`), no prompt is shown. -/
theorem set_env_not_always_prompting :
    ¬ ∀ (var : String) (env : Env) (prompt : String),
        (set_env prompt env var).2 = true ∧
        ((set_env prompt env var).1 var).isSome = true := by
  intro h
  have := (h "OPENAI_API_KEY" envWithKey "typed-key").1
  simp [set_env, envFalsy, envWithKey] at this

/-- C7 amended: `_set_env(var)` prompts exactly when the variable is unset
or empty, and in every case, after it returns, `os.environ[var]` is set for
the current process. -/
theorem set_env_sets_var_prompting_iff_unset (var : String) (env : Env)
    (prompt : String) :
    ((set_env prompt env var).1 var).isSome = true ∧
    (set_env prompt env var).2 = envFalsy (env var) := by
  unfold set_env
  cases h : envFalsy (env var) <;> simp [h, Env.set]

/-- C8: `call_model` never mutates the store: its only store API call is
the search of the user's namespace, and applying its operations to any
store returns that store unchanged. -/
theorem call_model_no_store_mutation (chat : ChatModel)
    (state : List Message) (config : Config) (store : Store) :
    ((call_model chat state config store).ops.all (fun op => !op.isPut)) = true ∧
    store.applyOps (call_model chat state config store).ops = store :=
  ⟨rfl, rfl⟩

/-- C2: every store access of a turn — the search of `call_model` and the
search and every put of `write_memory` — addresses exactly the namespace
`("memories", user_id)` of the configured user; the namespaces of two
distinct user ids are distinct; and a turn for one user leaves every other
user's records untouched. -/
theorem turn_namespace_isolation (chat : ChatModel) (extractor : Extractor)
    (uuids : UuidSource) (state : List Message) (config : Config)
    (store : Store) :
    (∀ op ∈ (runTurn chat extractor uuids state config store).ops,
        op.ns = ["memories", config.user_id]) ∧
    (∀ u u' : String, (["memories", u] : Namespace) = ["memories", u'] →
        u = u') ∧
    (∀ u' : String, u' ≠ config.user_id →
        (runTurn chat extractor uuids state config store).store.search
            ["memories", u'] =
          store.search ["memories", u']) := by
  have hc : ∀ op ∈ (call_model chat state config store).ops,
      op.ns = ["memories", config.user_id] := by
    intro op hop
    simp only [call_model, List.mem_singleton] at hop
    subst hop
    rfl
  have hw : ∀ (st : List Message) (s : Store),
      ∀ op ∈ (write_memory extractor uuids st config s).ops,
        op.ns = ["memories", config.user_id] := by
    intro st s op hop
    simp only [write_memory, List.mem_cons] at hop
    rcases hop with rfl | h
    · rfl
    · exact putLoop_ns _ uuids _ 0 op h
  refine ⟨?_, ?_, ?_⟩
  · intro op hop
    simp only [runTurn, List.mem_append] at hop
    rcases hop with h | h
    · exact hc op h
    · exact hw _ _ op h
  · intro u u' h
    simpa using h
  · intro u' hu
    have hne : (["memories", u'] : Namespace) ≠ ["memories", config.user_id] := by
      simp [hu]
    simp only [runTurn]
    exact (Store.search_applyOps_ne _ _ hne _ _ (hw _ _)).trans
      (Store.search_applyOps_ne _ _ hne _ _ hc)

/-- A concrete chat-model oracle, for evaluating the theorems. -/
def chatOracle : ChatModel := fun _ => Message.ai "Hello, Lance!"

/-- A concrete extractor oracle: one extracted memory, updating the record
stored under key `k1`. -/
def extractorOracle : Extractor := fun _ _ =>
  { responses := [{ content := "User likes biking" }],
    response_metadata := [[("json_doc_id", "k1")]] }

/-- A concrete uuid source. -/
def uuidOracle : UuidSource := fun i => "uuid-" ++ toString i

/-- The config of the notebook's first run: thread `1`, user `1`. -/
def cfgUser1 : Config := { thread_id := "1", user_id := "1" }

/-- A store holding one record of user `2`. -/
def storeUser2 : Store :=
  [(["memories", "2"], "kb", Json.obj [("content", Json.str "Other user fact")])]

/-- C2 witness: at concrete inputs, the theorem yields that the first store
access of the turn addresses user `1`'s namespace and that user `2`'s
records are unchanged by a turn of user `1`. -/
theorem turn_namespace_isolation_witness :
    (StoreOp.search ["memories", "1"]).ns = ["memories", "1"] ∧
    ("1" : String) = "1" ∧
    (runTurn chatOracle extractorOracle uuidOracle [Message.human "Hi"]
        cfgUser1 storeUser2).store.search ["memories", "2"] =
      storeUser2.search ["memories", "2"] := by
  refine ⟨?_, ?_, ?_⟩
  · exact (turn_namespace_isolation chatOracle extractorOracle uuidOracle
      [Message.human "Hi"] cfgUser1 storeUser2).1
      (StoreOp.search ["memories", "1"]) (List.mem_cons_self _ _)
  · exact (turn_namespace_isolation chatOracle extractorOracle uuidOracle
      [Message.human "Hi"] cfgUser1 storeUser2).2.1 "1" "1" rfl
  · exact (turn_namespace_isolation chatOracle extractorOracle uuidOracle
      [Message.human "Hi"] cfgUser1 storeUser2).2.2 "2" (by decide)

/-- C9: `write_memory` hands the extractor `existing = None` exactly when
the search of the user's namespace found nothing (never an empty list), and
otherwise the `(key, "Memory", value)` triples of the found items in search
order; the extractor is invoked on the merged messages with exactly that
argument. -/
theorem write_memory_existing_arg (extractor : Extractor)
    (uuids : UuidSource) (state : List Message) (config : Config)
    (store : Store) :
    (store.search ["memories", config.user_id] = [] →
      (write_memory extractor uuids state config store).existingArg = none) ∧
    (store.search ["memories", config.user_id] ≠ [] →
      (write_memory extractor uuids state config store).existingArg =
        some ((store.search ["memories", config.user_id]).map
          (fun it => (it.key, "Memory", it.value)))) ∧
    (write_memory extractor uuids state config store).result =
      extractor
        (merge_message_runs (Message.system TRUSTCALL_INSTRUCTION :: state))
        (write_memory extractor uuids state config store).existingArg := by
  refine ⟨?_, ?_, rfl⟩
  · intro h
    simp [write_memory, h]
  · intro h
    simp only [write_memory]
    rw [if_neg (by simpa [List.isEmpty_iff] using h)]

/-- The empty store. -/
def emptyStore : Store := []

/-- A store holding one record of user `1` under key `k1`. -/
def oneItemStore : Store :=
  [(["memories", "1"], "k1", Json.obj [("content", Json.str "User likes biking")])]

/-- C9 witness: on an empty store the extractor receives `none`; on a store
with one record of user `1` it receives exactly that record's
`(key, "Memory", value)` triple. -/
theorem write_memory_existing_arg_witness :
    (write_memory extractorOracle uuidOracle [] cfgUser1 emptyStore).existingArg
        = none ∧
    (write_memory extractorOracle uuidOracle [] cfgUser1 oneItemStore).existingArg
        = some [("k1", "Memory", Json.obj [("content", Json.str "User likes biking")])] := by
  constructor
  · exact (write_memory_existing_arg extractorOracle uuidOracle [] cfgUser1
      emptyStore).1 rfl
  · exact ((write_memory_existing_arg extractorOracle uuidOracle [] cfgUser1
      oneItemStore).2.1
        (fun h => absurd (congrArg List.length h) (by decide))).trans rfl

/-- C10: when the variable already holds a non-empty value, `_set_env` does
not prompt and leaves the environment unchanged; hence after one call that
establishes a non-empty value, every further call is a promptless no-op on
the environment. -/
theorem set_env_idempotent :
    (∀ (env : Env) (var s prompt : String), env var = some s → s ≠ "" →
        set_env prompt env var = (env, false)) ∧
    (∀ (env : Env) (var prompt1 prompt2 s : String),
        (set_env prompt1 env var).1 var = some s → s ≠ "" →
        set_env prompt2 (set_env prompt1 env var).1 var =
          ((set_env prompt1 env var).1, false)) := by
  have h1 : ∀ (env : Env) (var s prompt : String), env var = some s → s ≠ "" →
      set_env prompt env var = (env, false) := by
    intro env var s prompt hv hs
    have hset : env.set var s = env := by
      funext v
      unfold Env.set
      split
      · next h => rw [h, hv]
      · rfl
    unfold set_env
    rw [hv]
    simp [envFalsy, hs, hset]
  exact ⟨h1, fun env var p1 p2 s hv hs => h1 _ _ _ _ hv hs⟩

/-- An environment with no variable set. -/
def envEmpty : Env := fun _ => none

/-- C10 witness: with `OPENAI_API_KEY` already set to `sk-test`, the call
is a promptless no-op; and after a first call establishes
`LANGSMITH_API_KEY`, a second call is a promptless no-op. -/
theorem set_env_idempotent_witness :
    set_env "ignored" envWithKey "OPENAI_API_KEY" = (envWithKey, false) ∧
    set_env "again" (set_env "first-key" envEmpty "LANGSMITH_API_KEY").1
        "LANGSMITH_API_KEY" =
      ((set_env "first-key" envEmpty "LANGSMITH_API_KEY").1, false) := by
  constructor
  · exact set_env_idempotent.1 envWithKey "OPENAI_API_KEY" "sk-test" "ignored"
      (by decide) (by decide)
  · exact set_env_idempotent.2 envEmpty "LANGSMITH_API_KEY" "first-key" "again"
      "first-key" (by decide) (by decide)

end MemorySchema
